import Mathlib

/-!
Verification of `src/sw/utils/read_bitmap_header/read_bitmap_header.cpp`.

The program opens a named file in binary mode, reads the first 14 bytes
into a packed `BitmapFileHeader` record, validates the `0x4D42` magic
number, and prints the file size and the pixel-data offset.

Embedding choices:
* a file's contents are a `List Nat` of bytes; a file that cannot be
  opened is represented by `none`;
* `std::ifstream::read` into the stack-allocated, uninitialized
  `BitmapFileHeader` copies `min 14 (length of file)` bytes and leaves the
  remaining buffer positions indeterminate.  The indeterminate memory is
  made explicit as a `junk` parameter: byte `i` of the buffer is the
  file's byte `i` when the file has one, and `junk` byte `i` otherwise;
* all multi-byte fields are little-endian, as on the program's target;
* observable behavior is a `ProgState`: the lines written to `std::cout`,
  the lines written to `std::cerr`, and the file-handle events
  (acquisition by the `std::ifstream` constructor, release by
  `file.close()` / the destructor).
-/

namespace ReadBitmapHeader

/-- Little-endian decoding of two bytes into a 16-bit unsigned value. -/
def le16 (b0 b1 : Nat) : Nat := b0 + 256 * b1

/-- Little-endian decoding of four bytes into a 32-bit unsigned value. -/
def le32 (b0 b1 b2 b3 : Nat) : Nat :=
  b0 + 256 * b1 + 65536 * b2 + 16777216 * b3

/-- The packed `BitmapFileHeader` struct of the source: 14 bytes, no
padding, fields in declaration order. -/
structure BitmapFileHeader where
  bfType : Nat
  bfSize : Nat
  bfReserved1 : Nat
  bfReserved2 : Nat
  bfOffBits : Nat
  deriving DecidableEq, Repr

/-- File-handle events of one invocation. -/
inductive HandleEvent
  | acquired
  | released
  deriving DecidableEq, Repr

/-- Observable state of one run: `std::cout` lines, `std::cerr` lines,
and the file-handle events in order. -/
structure ProgState where
  out : List String
  err : List String
  events : List HandleEvent
  deriving DecidableEq, Repr

/-- Byte `i` of the 14-byte buffer after `file.read`: the source reads
into an uninitialized struct without checking the returned byte count, so
positions at or past the file's length keep the indeterminate bytes
`junk`. -/
def readByte (content junk : List Nat) (i : Nat) : Nat :=
  if i < content.length then content.getD i 0 else junk.getD i 0

/-- The `BitmapFileHeader` value left in memory by
`file.read(reinterpret_cast<char*>(&header), sizeof(header))`:
each field decoded little-endian from its bytes of the buffer. -/
def readHeaderStruct (content junk : List Nat) : BitmapFileHeader :=
  { bfType := le16 (readByte content junk 0) (readByte content junk 1)
    bfSize := le32 (readByte content junk 2) (readByte content junk 3)
      (readByte content junk 4) (readByte content junk 5)
    bfReserved1 := le16 (readByte content junk 6) (readByte content junk 7)
    bfReserved2 := le16 (readByte content junk 8) (readByte content junk 9)
    bfOffBits := le32 (readByte content junk 10) (readByte content junk 11)
      (readByte content junk 12) (readByte content junk 13) }

/-- The part of `readBmpHeader` after the read: validate the magic number
and either report the error or print the two fields, closing the file on
both paths. -/
def reportHeader (header : BitmapFileHeader) : ProgState :=
  if header.bfType ≠ 0x4D42 then
    { out := []
      err := ["Error: Not a valid BMP file."]
      events := [HandleEvent.acquired, HandleEvent.released] }
  else
    { out := ["File size: " ++ toString header.bfSize ++ " bytes",
              "Header size (offset to pixel data): " ++
                toString header.bfOffBits ++ " bytes"]
      err := []
      events := [HandleEvent.acquired, HandleEvent.released] }

/-- `readBmpHeader(const char* filename)`: `content` is the contents of
the file at `filename`, `none` when the open fails; `junk` is the
indeterminate initial content of the stack buffer. -/
def readBmpHeader (filename : String) (content : Option (List Nat))
    (junk : List Nat) : ProgState :=
  match content with
  | none =>
      { out := []
        err := ["Error: Could not open file " ++ filename]
        events := [] }
  | some bytes => reportHeader (readHeaderStruct bytes junk)

/-- A filesystem: each path maps to the contents of its file, or to
`none` when no file there can be opened for binary read. -/
def Fs : Type := String → Option (List Nat)

/-- `readBmpHeader` threaded through the filesystem state: the function
only opens the file for reading and never writes, so the filesystem
component is returned as received. -/
def runReadBmpHeader (fs : Fs) (filename : String) (junk : List Nat) :
    Fs × ProgState :=
  (fs, readBmpHeader filename (fs filename) junk)

/-- The hardcoded sample path of `main`. -/
def samplePath : String := "../../../data/images/test_10x10.bmp"

/-- `main`: calls `readBmpHeader` on the sample path and returns exit
status 0 unconditionally. -/
def main (fs : Fs) (junk : List Nat) : Nat × ProgState :=
  (0, readBmpHeader samplePath (fs samplePath) junk)

/-! ### Helper lemmas -/

theorem readByte_eq_getD (content junk : List Nat) (i : Nat)
    (h : i < content.length) : readByte content junk i = content.getD i 0 :=
  if_pos h

theorem readHeaderStruct_full (bytes junk : List Nat)
    (h : 14 ≤ bytes.length) :
    readHeaderStruct bytes junk =
      { bfType := le16 (bytes.getD 0 0) (bytes.getD 1 0)
        bfSize := le32 (bytes.getD 2 0) (bytes.getD 3 0) (bytes.getD 4 0)
          (bytes.getD 5 0)
        bfReserved1 := le16 (bytes.getD 6 0) (bytes.getD 7 0)
        bfReserved2 := le16 (bytes.getD 8 0) (bytes.getD 9 0)
        bfOffBits := le32 (bytes.getD 10 0) (bytes.getD 11 0)
          (bytes.getD 12 0) (bytes.getD 13 0) } := by
  have e0 := readByte_eq_getD bytes junk 0 (by omega)
  have e1 := readByte_eq_getD bytes junk 1 (by omega)
  have e2 := readByte_eq_getD bytes junk 2 (by omega)
  have e3 := readByte_eq_getD bytes junk 3 (by omega)
  have e4 := readByte_eq_getD bytes junk 4 (by omega)
  have e5 := readByte_eq_getD bytes junk 5 (by omega)
  have e6 := readByte_eq_getD bytes junk 6 (by omega)
  have e7 := readByte_eq_getD bytes junk 7 (by omega)
  have e8 := readByte_eq_getD bytes junk 8 (by omega)
  have e9 := readByte_eq_getD bytes junk 9 (by omega)
  have e10 := readByte_eq_getD bytes junk 10 (by omega)
  have e11 := readByte_eq_getD bytes junk 11 (by omega)
  have e12 := readByte_eq_getD bytes junk 12 (by omega)
  have e13 := readByte_eq_getD bytes junk 13 (by omega)
  simp only [readHeaderStruct, e0, e1, e2, e3, e4, e5, e6, e7, e8, e9,
    e10, e11, e12, e13]

/-! ### Claims -/

/-- C1: for every file of at least 14 bytes whose first two bytes decode
(little-endian) to 0x4D42, `readBmpHeader` reports exactly the values
encoded in bytes 2-5 (file size) and bytes 10-13 (pixel-data offset),
each decoded as a little-endian unsigned 32-bit integer. -/
theorem c1_valid_header_fields (filename : String) (bytes junk : List Nat)
    (hlen : 14 ≤ bytes.length)
    (hsig : le16 (bytes.getD 0 0) (bytes.getD 1 0) = 0x4D42) :
    (readBmpHeader filename (some bytes) junk).out =
      ["File size: " ++
         toString (le32 (bytes.getD 2 0) (bytes.getD 3 0) (bytes.getD 4 0)
           (bytes.getD 5 0)) ++ " bytes",
       "Header size (offset to pixel data): " ++
         toString (le32 (bytes.getD 10 0) (bytes.getD 11 0)
           (bytes.getD 12 0) (bytes.getD 13 0)) ++ " bytes"] := by
  simp only [readBmpHeader, readHeaderStruct_full bytes junk hlen,
    reportHeader, hsig]
  simp

/-- C1 witness: the concrete file beginning 42 4D 46 00 00 00 00 00 00 00
36 00 00 00 reports file size 70 and pixel-data offset 54. -/
theorem c1_valid_header_fields_witness :
    (readBmpHeader "sample.bmp"
        (some [0x42, 0x4D, 0x46, 0, 0, 0, 0, 0, 0, 0, 0x36, 0, 0, 0])
        (List.replicate 14 0)).out =
      ["File size: 70 bytes",
       "Header size (offset to pixel data): 54 bytes"] := by
  have h := c1_valid_header_fields "sample.bmp"
    [0x42, 0x4D, 0x46, 0, 0, 0, 0, 0, 0, 0, 0x36, 0, 0, 0]
    (List.replicate 14 0) (by decide) (by decide)
  simpa using h

/-- C2: for every readable file whose first two bytes decode
(little-endian) to a value other than 0x4D42, `readBmpHeader` writes the
single diagnostic line to the error stream, and nothing to the output
stream: no numeric field is reported. -/
theorem c2_invalid_signature (filename : String) (bytes junk : List Nat)
    (hlen : 2 ≤ bytes.length)
    (hsig : le16 (bytes.getD 0 0) (bytes.getD 1 0) ≠ 0x4D42) :
    (readBmpHeader filename (some bytes) junk).err =
        ["Error: Not a valid BMP file."] ∧
    (readBmpHeader filename (some bytes) junk).out = [] := by
  have e0 := readByte_eq_getD bytes junk 0 (by omega)
  have e1 := readByte_eq_getD bytes junk 1 (by omega)
  simp only [readBmpHeader, readHeaderStruct, reportHeader, e0, e1,
    if_pos hsig]
  simp

/-- C2 witness: a file beginning with two zero bytes produces exactly the
invalid-format diagnostic and no output. -/
theorem c2_invalid_signature_witness :
    (readBmpHeader "zero.bmp" (some [0, 0]) (List.replicate 14 0)).err =
        ["Error: Not a valid BMP file."] ∧
    (readBmpHeader "zero.bmp" (some [0, 0]) (List.replicate 14 0)).out =
        [] :=
  c2_invalid_signature "zero.bmp" [0, 0] (List.replicate 14 0)
    (by decide) (by decide)

/-- C3: when the file cannot be opened, `readBmpHeader` writes the single
open-error diagnostic naming the path to the error stream and stops: no
handle event occurs and nothing reaches the output stream. -/
theorem c3_open_error (filename : String) (junk : List Nat) :
    (readBmpHeader filename none junk).err =
        ["Error: Could not open file " ++ filename] ∧
    (readBmpHeader filename none junk).out = [] ∧
    (readBmpHeader filename none junk).events = [] :=
  ⟨rfl, rfl, rfl⟩

/-- C4: the code violates the claim.  On a 2-byte file whose bytes are
"BM", the read leaves `bfSize` (and the other trailing fields) as the
indeterminate content of the uninitialized stack buffer; the signature
check still passes and the program prints those indeterminate values, so
the reported output depends on memory the program never initialized. -/
theorem c4_short_read_reports_undefined_values :
    (readBmpHeader "short.bmp" (some [0x42, 0x4D])
        (List.replicate 14 0)).out ≠
    (readBmpHeader "short.bmp" (some [0x42, 0x4D])
        (0 :: 0 :: 1 :: List.replicate 11 0)).out := by
  decide

/-- C5: on every successful run (file opened, at least 14 bytes, valid
signature) the output stream receives exactly the two report lines, in
order and in the exact format of the source, and the error stream stays
empty. -/
theorem c5_success_output_format (filename : String)
    (bytes junk : List Nat) (hlen : 14 ≤ bytes.length)
    (hsig : le16 (bytes.getD 0 0) (bytes.getD 1 0) = 0x4D42) :
    (readBmpHeader filename (some bytes) junk).out =
      ["File size: " ++
         toString (readHeaderStruct bytes junk).bfSize ++ " bytes",
       "Header size (offset to pixel data): " ++
         toString (readHeaderStruct bytes junk).bfOffBits ++ " bytes"] ∧
    (readBmpHeader filename (some bytes) junk).err = [] := by
  simp only [readBmpHeader, readHeaderStruct_full bytes junk hlen,
    reportHeader, hsig]
  simp

/-- C5 witness: a concrete successful run prints the two lines and leaves
the error stream empty. -/
theorem c5_success_output_format_witness :
    (readBmpHeader "ok.bmp"
        (some [0x42, 0x4D, 0x46, 0, 0, 0, 0, 0, 0, 0, 0x36, 0, 0, 0])
        (List.replicate 14 0)).out =
      ["File size: " ++
         toString (readHeaderStruct
           [0x42, 0x4D, 0x46, 0, 0, 0, 0, 0, 0, 0, 0x36, 0, 0, 0]
           (List.replicate 14 0)).bfSize ++ " bytes",
       "Header size (offset to pixel data): " ++
         toString (readHeaderStruct
           [0x42, 0x4D, 0x46, 0, 0, 0, 0, 0, 0, 0, 0x36, 0, 0, 0]
           (List.replicate 14 0)).bfOffBits ++ " bytes"] ∧
    (readBmpHeader "ok.bmp"
        (some [0x42, 0x4D, 0x46, 0, 0, 0, 0, 0, 0, 0, 0x36, 0, 0, 0])
        (List.replicate 14 0)).err = [] :=
  c5_success_output_format "ok.bmp"
    [0x42, 0x4D, 0x46, 0, 0, 0, 0, 0, 0, 0, 0x36, 0, 0, 0]
    (List.replicate 14 0) (by decide) (by decide)

/-- C6: `main` returns exit status 0 for every filesystem (file present
with any contents, or absent) and every buffer content: errors are only
logged, never reflected in the exit code. -/
theorem c6_exit_status_always_zero (fs : Fs) (junk : List Nat) :
    (main fs junk).1 = 0 :=
  rfl

theorem readHeaderStruct_junk_indep (bytes j1 j2 : List Nat)
    (h : 14 ≤ bytes.length) :
    readHeaderStruct bytes j1 = readHeaderStruct bytes j2 := by
  rw [readHeaderStruct_full bytes j1 h, readHeaderStruct_full bytes j2 h]

/-- C7 counterexample: two invocations on the same unchanged 2-byte file
"BM" can print different values, because each invocation reads its own
uninitialized stack buffer and the two buffers need not hold the same
indeterminate bytes. -/
theorem c7_two_runs_can_differ :
    readBmpHeader "short.bmp" (some [0x42, 0x4D])
        (List.replicate 14 0) ≠
    readBmpHeader "short.bmp" (some [0x42, 0x4D])
        (0 :: 0 :: 2 :: List.replicate 11 0) := by
  decide

/-- C7 amended: for every file that fails to open or holds at least 14
bytes, two invocations of `readBmpHeader` on the same unchanged file
yield identical observable behavior, even when the indeterminate contents
of the uninitialized buffer differ between the invocations. -/
theorem c7_idempotent (filename : String) (content : Option (List Nat))
    (j1 j2 : List Nat)
    (h : content = none ∨
      ∃ bytes, content = some bytes ∧ 14 ≤ bytes.length) :
    readBmpHeader filename content j1 = readBmpHeader filename content j2 := by
  rcases h with h | ⟨bytes, rfl, hlen⟩
  · subst h; rfl
  · simp only [readBmpHeader, readHeaderStruct_junk_indep bytes j1 j2 hlen]

/-- C7 witness: two invocations on a concrete 14-byte file with different
buffer garbage agree. -/
theorem c7_idempotent_witness :
    readBmpHeader "ok.bmp"
        (some [0x42, 0x4D, 0x46, 0, 0, 0, 0, 0, 0, 0, 0x36, 0, 0, 0])
        (List.replicate 14 0) =
    readBmpHeader "ok.bmp"
        (some [0x42, 0x4D, 0x46, 0, 0, 0, 0, 0, 0, 0, 0x36, 0, 0, 0])
        (List.replicate 14 7) :=
  c7_idempotent "ok.bmp"
    (some [0x42, 0x4D, 0x46, 0, 0, 0, 0, 0, 0, 0, 0x36, 0, 0, 0])
    (List.replicate 14 0) (List.replicate 14 7)
    (Or.inr ⟨_, rfl, by decide⟩)

/-- C8: the filesystem after any invocation of `readBmpHeader` is the
filesystem before it: the operation only reads, so no file is created,
written or deleted, on every exit path. -/
theorem c8_no_filesystem_mutation (fs : Fs) (filename : String)
    (junk : List Nat) :
    (runReadBmpHeader fs filename junk).1 = fs :=
  rfl

/-- C9: whenever the open succeeds, the handle events of the invocation
are exactly one acquisition followed by one release, on the
invalid-signature path and on the success path alike: the handle is
released before the operation returns. -/
theorem c9_handle_released (filename : String) (bytes junk : List Nat) :
    (readBmpHeader filename (some bytes) junk).events =
      [HandleEvent.acquired, HandleEvent.released] := by
  simp only [readBmpHeader, reportHeader]
  split <;> rfl

/-- C10: for any two readable files of at least 14 bytes agreeing on
bytes 0-1, 2-5 and 10-13, `readBmpHeader` produces identical observable
behavior: the reserved bytes 6-9, all bytes past index 13, and the
uninitialized buffer contents never influence the result. -/
theorem c10_only_used_bytes_matter (filename : String)
    (b1 b2 j1 j2 : List Nat)
    (hl1 : 14 ≤ b1.length) (hl2 : 14 ≤ b2.length)
    (h0 : b1.getD 0 0 = b2.getD 0 0) (h1 : b1.getD 1 0 = b2.getD 1 0)
    (h2 : b1.getD 2 0 = b2.getD 2 0) (h3 : b1.getD 3 0 = b2.getD 3 0)
    (h4 : b1.getD 4 0 = b2.getD 4 0) (h5 : b1.getD 5 0 = b2.getD 5 0)
    (h10 : b1.getD 10 0 = b2.getD 10 0)
    (h11 : b1.getD 11 0 = b2.getD 11 0)
    (h12 : b1.getD 12 0 = b2.getD 12 0)
    (h13 : b1.getD 13 0 = b2.getD 13 0) :
    readBmpHeader filename (some b1) j1 =
      readBmpHeader filename (some b2) j2 := by
  simp only [readBmpHeader, readHeaderStruct_full b1 j1 hl1,
    readHeaderStruct_full b2 j2 hl2, reportHeader, h0, h1, h2, h3, h4,
    h5, h10, h11, h12, h13]

/-- C10 witness: two concrete files differing only in the reserved bytes
6-9 and in content past byte 13 behave identically. -/
theorem c10_only_used_bytes_matter_witness :
    readBmpHeader "a.bmp"
        (some [0x42, 0x4D, 0x46, 0, 0, 0, 0, 0, 0, 0, 0x36, 0, 0, 0])
        (List.replicate 14 0) =
      readBmpHeader "a.bmp"
        (some [0x42, 0x4D, 0x46, 0, 0, 0, 9, 9, 9, 9, 0x36, 0, 0, 0, 1,
          2, 3])
        (List.replicate 14 5) :=
  c10_only_used_bytes_matter "a.bmp"
    [0x42, 0x4D, 0x46, 0, 0, 0, 0, 0, 0, 0, 0x36, 0, 0, 0]
    [0x42, 0x4D, 0x46, 0, 0, 0, 9, 9, 9, 9, 0x36, 0, 0, 0, 1, 2, 3]
    (List.replicate 14 0) (List.replicate 14 5)
    (by decide) (by decide) (by decide) (by decide) (by decide)
    (by decide) (by decide) (by decide) (by decide) (by decide)
    (by decide) (by decide)

end ReadBitmapHeader
